import Mathlib

/-!
Verification development for the WhatConnects multiplayer quiz backend.

The definitions below are a shallow embedding of the Django backend:
`apps/games/models.py`, `apps/games/views.py`, `apps/games/services.py`,
`apps/rooms/models.py`, `apps/rooms/views.py` and
`apps/websockets/consumers.py`.  Database tables become lists of records,
Django's `transaction.atomic` becomes "return the original state on error",
and each HTTP view / WebSocket handler becomes a function from a database
state to a result together with the successor state.
-/

/-! ### Python string helpers

Models of `str.strip()` and `str.lower()` as used by
`Question.check_answer` and `SubmitAnswerView.post` (ASCII model). -/

def pyIsSpace (c : Char) : Bool :=
  c == ' ' || c == '\t' || c == '\n' || c == '\r' || c == '\x0b' || c == '\x0c'

def pyStrip (s : String) : String :=
  String.mk (((s.data.dropWhile pyIsSpace).reverse.dropWhile pyIsSpace).reverse)

def pyLower (s : String) : String :=
  String.mk (s.data.map Char.toLower)

/-! ### Data model (apps/*/models.py) -/

inductive RoomStatus
  | waiting
  | in_progress
  | completed
deriving DecidableEq

inductive GameStatus
  | active
  | completed
deriving DecidableEq

/-- A row of the `players` table (`apps/users/models.py`). -/
structure Player where
  id : Nat
  username : String
deriving DecidableEq

/-- A row of the `rooms` table (`apps/rooms/models.py`, class `Room`). -/
structure Room where
  id : Nat
  code : String
  host : Nat
  status : RoomStatus
  max_players : Nat
  current_game : Option Nat
deriving DecidableEq

/-- A row of the `room_players` join table (`apps/rooms/models.py`,
class `RoomPlayer`): unique per (room, player).  Unlike `Player`,
`RoomPlayer` extends only `TimeStampedModel`, so `id` is the default
integer `BigAutoField` primary key — a different id space from the
players' UUID primary keys, which never collides with them in any real
store. -/
structure RoomPlayer where
  id : Nat
  room : Nat
  player : Nat
  is_ready : Bool
  score : Int
deriving DecidableEq

/-- A row of the `games` table (`apps/games/models.py`, class `Game`). -/
structure Game where
  id : Nat
  room : Nat
  status : GameStatus
  current_question_index : Nat
deriving DecidableEq

/-- A row of the `questions` table.  The source carries both the
free-text-era `text` column (`apps/games/models.py`) and the MCQ-era
`options` column used by `services.py` and `rooms/views.py`, so the
embedding keeps both. -/
structure Question where
  id : Nat
  game : Nat
  order : Nat
  text : String
  items : List String
  options : List String
  correct_answer : String
  hint : String
  time_limit : Int
deriving DecidableEq

/-- A row of the `answers` table: unique per (question, player). -/
structure Answer where
  id : Nat
  question : Nat
  player : Nat
  answer_text : String
  is_correct : Bool
  used_hint : Bool
  time_taken : Int
  points_earned : Int
deriving DecidableEq

/-- A row of the `game_scores` table (`apps/games/models.py`,
class `GameScore`).  `created_at` is the creation timestamp used as the
ranking tie-break. -/
structure GameScore where
  game : Nat
  player : Nat
  total_score : Int
  correct_answers : Nat
  wrong_answers : Nat
  rank : Option Nat
  created_at : Nat
deriving DecidableEq

/-- The whole relational store.  `next_id` models the id allocator. -/
structure DB where
  rooms : List Room
  room_players : List RoomPlayer
  players : List Player
  games : List Game
  questions : List Question
  answers : List Answer
  scores : List GameScore
  next_id : Nat

/-! ### Settings (config/settings/base.py, GAME_SETTINGS) -/

def MIN_PLAYERS : Nat := 2

def TIME_LIMIT_SECONDS : Int := 30

def CORRECT_ANSWER_POINTS : Int := 10

def CORRECT_ANSWER_WITH_HINT_POINTS : Int := 5

def WRONG_ANSWER_POINTS : Int := 0

def WRONG_ANSWER_WITH_HINT_POINTS : Int := -5

/-! ### Pure model methods -/

/-- `Question.check_answer` (`apps/games/models.py` lines 143-148):
case-insensitive comparison with whitespace trimming. -/
def Question.checkAnswer (q : Question) (answer_text : String) : Bool :=
  pyLower (pyStrip answer_text) == pyLower (pyStrip q.correct_answer)

/-- `Answer.calculate_points` (`apps/games/models.py`), with the point
table taken from `settings.GAME_SETTINGS`. -/
def calculatePoints (is_correct used_hint : Bool) : Int :=
  if is_correct then
    if used_hint then CORRECT_ANSWER_WITH_HINT_POINTS else CORRECT_ANSWER_POINTS
  else
    if used_hint then WRONG_ANSWER_WITH_HINT_POINTS else WRONG_ANSWER_POINTS

/-- `GameScore.update_score` (`apps/games/models.py` lines 269-281). -/
def GameScore.updateScore (gs : GameScore) (a : Answer) : GameScore :=
  { gs with
    total_score := gs.total_score + a.points_earned
    correct_answers := gs.correct_answers + (if a.is_correct then 1 else 0)
    wrong_answers := gs.wrong_answers + (if a.is_correct then 0 else 1) }

/-- Rounding to two decimal places, as in Python `round(x, 2)`. -/
def round2 (x : ℚ) : ℚ :=
  ((round (x * 100) : ℤ) : ℚ) / 100

/-- `GameScore.accuracy` (`apps/games/models.py` lines 261-267). -/
def GameScore.accuracy (gs : GameScore) : ℚ :=
  let total_answers := gs.correct_answers + gs.wrong_answers
  if total_answers = 0 then 0
  else round2 (((gs.correct_answers : ℚ) / (total_answers : ℚ)) * 100)

/-! ### Table lookups (Django ORM queries) -/

def DB.findRoom (db : DB) (code : String) : Option Room :=
  db.rooms.find? (fun r => r.code == code)

def DB.findPlayer (db : DB) (pid : Nat) : Option Player :=
  db.players.find? (fun p => p.id == pid)

/-- `room.players.count()` (`Room.player_count`). -/
def DB.roomPlayerCount (db : DB) (roomId : Nat) : Nat :=
  (db.room_players.filter (fun rp => rp.room == roomId)).length

/-- `game.room.players.filter(id=player.id).exists()`
(`apps/games/views.py` line 82).  `room.players` is the `RoomPlayer`
related manager, so this filters the membership rows' integer primary
key by the value passed in — the view passes the player's UUID, which
no `RoomPlayer` pk ever equals. -/
def DB.roomPlayerPkExists (db : DB) (roomId pk : Nat) : Bool :=
  db.room_players.any (fun rp => rp.room == roomId && rp.id == pk)

/-- `Game.total_questions`: `self.questions.count()`. -/
def DB.totalQuestions (db : DB) (gameId : Nat) : Nat :=
  (db.questions.filter (fun q => q.game == gameId)).length

/-- Question ordering relation used by `order_by('order')`. -/
def questionOrderLe (a b : Question) : Prop :=
  a.order ≤ b.order

instance : DecidableRel questionOrderLe :=
  fun a b => inferInstanceAs (Decidable (a.order ≤ b.order))

/-- `Game.current_question`: `self.questions.order_by('order')[index]`
when the index is in range, else `None`. -/
def DB.questionAt (db : DB) (gameId : Nat) (idx : Nat) : Option Question :=
  (List.insertionSort questionOrderLe
    (db.questions.filter (fun q => q.game == gameId)))[idx]?

/-- Persist a `GameScore` row keyed by (game, player). -/
def DB.setScore (db : DB) (gs : GameScore) : DB :=
  { db with scores :=
      db.scores.map (fun s =>
        if s.game == gs.game && s.player == gs.player then gs else s) }

/-! ### Broadcast payloads

JSON values restricted to what the question payloads need; for the
broadcast claims only the set of keys matters. -/

inductive PV
  | s (v : String)
  | n (v : Int)
  | ls (v : List String)
deriving DecidableEq

/-- The `question` object of the `game_started` broadcast built by
`RoomStartGameView.post` (`apps/rooms/views.py` lines 287-301), key for
key as the source writes the dict.  (On the source's current schema
this dict is never actually built: `first_question.options` raises
`AttributeError`, the view having already failed earlier in question
creation; the key set as written is what the claims about it concern.) -/
def httpGameStartedQuestionPayload (q : Question) : List (String × PV) :=
  [("id", PV.n (Int.ofNat q.id)),
   ("order", PV.n (Int.ofNat q.order)),
   ("items", PV.ls q.items),
   ("options", PV.ls q.options),
   ("hint", PV.s q.hint),
   ("time_limit", PV.n (if q.time_limit == 0 then 30 else q.time_limit))]

/-- The `question` object built by `GameRoomConsumer.start_game`
(`apps/websockets/consumers.py` lines 570-577). -/
def wsStartGameQuestionPayload (q : Question) : List (String × PV) :=
  [("id", PV.n (Int.ofNat q.id)),
   ("order", PV.n (Int.ofNat q.order)),
   ("text", PV.s q.text),
   ("items", PV.ls q.items),
   ("time_limit", PV.n q.time_limit)]

/-- The `question` object of the `next_question` broadcast built by
`GameRoomConsumer.get_next_question` (`apps/websockets/consumers.py`
lines 676-684).  Note that the source includes the question's
`correct_answer` here. -/
def wsNextQuestionQuestionPayload (q : Question) : List (String × PV) :=
  [("id", PV.n (Int.ofNat q.id)),
   ("order", PV.n (Int.ofNat q.order)),
   ("text", PV.s q.text),
   ("items", PV.ls q.items),
   ("hint", PV.s q.hint),
   ("time_limit", PV.n q.time_limit),
   ("correct_answer", PV.s q.correct_answer)]

/-- The keys the spec allows in a broadcast question object. -/
def specQuestionKeys : List String :=
  ["id", "order", "items", "options", "hint", "time_limit"]

/-! ### Room joining (`RoomJoinView.post`, apps/rooms/views.py lines 95-128) -/

inductive JoinError
  | not_found
  | game_already_started
  | room_full
deriving DecidableEq

/-- `Room.is_full` (`apps/rooms/models.py` lines 74-77):
`player_count >= max_players`. -/
def DB.isFull (db : DB) (r : Room) : Bool :=
  r.max_players ≤ db.roomPlayerCount r.id

/-- `RoomJoinView.post`: look the room and the player up, refuse when the
game has started or the room is full, otherwise `get_or_create` the
membership with `is_ready := false` and `score := 0`.  The whole view
runs inside `transaction.atomic`, so errors leave the store unchanged. -/
def joinRoom (db : DB) (code : String) (pid : Nat) :
    Except JoinError Room × DB :=
  match db.findRoom code with
  | Option.none => (Except.error JoinError.not_found, db)
  | some room =>
    match db.findPlayer pid with
    | Option.none => (Except.error JoinError.not_found, db)
    | some player =>
      if room.status ≠ RoomStatus.waiting then
        (Except.error JoinError.game_already_started, db)
      else if db.isFull room then
        (Except.error JoinError.room_full, db)
      else
        match db.room_players.find?
            (fun rp => rp.room == room.id && rp.player == player.id) with
        | some _ => (Except.ok room, db)
        | Option.none =>
          (Except.ok room,
            { db with
                room_players := db.room_players ++
                  [{ id := db.next_id, room := room.id,
                     player := player.id, is_ready := false,
                     score := 0 }],
                next_id := db.next_id + 1 })

/-! ### Answer submission over HTTP (`SubmitAnswerView.post`,
apps/games/views.py lines 54-186) -/

inductive SubmitError
  | not_found
  | game_completed
  | player_not_in_game
  | invalid_question
  | answer_already_submitted
  | time_limit_exceeded
  | invalid_time_taken
deriving DecidableEq

structure SubmitOk where
  is_correct : Bool
  points_earned : Int
  total_score : Int
  correct_answer : Option String
deriving DecidableEq

/-- `GameScore.objects.get_or_create(game=game, player=player,
defaults={...})`, allocating `next_id` as the new row's timestamp. -/
def getOrCreateScore (db : DB) (gameId pid : Nat) : GameScore × DB :=
  match db.scores.find? (fun s => s.game == gameId && s.player == pid) with
  | some gs => (gs, db)
  | Option.none =>
    let gs : GameScore :=
      { game := gameId, player := pid, total_score := 0,
        correct_answers := 0, wrong_answers := 0, rank := Option.none,
        created_at := db.next_id }
    (gs, { db with scores := db.scores ++ [gs], next_id := db.next_id + 1 })

/-- `SubmitAnswerView.post`: the HTTP answer-submission endpoint, run
inside `transaction.atomic` (errors roll back to the original store). -/
def httpSubmitAnswer (db : DB) (game_id pid qid : Nat)
    (answer_text : String) (used_hint : Bool) (time_taken : Int) :
    Except SubmitError SubmitOk × DB :=
  match db.games.find? (fun g => g.id == game_id) with
  | Option.none => (Except.error SubmitError.not_found, db)
  | some game =>
  match db.findPlayer pid with
  | Option.none => (Except.error SubmitError.not_found, db)
  | some player =>
  match db.questions.find? (fun q => q.id == qid && q.game == game.id) with
  | Option.none => (Except.error SubmitError.not_found, db)
  | some question =>
  if game.status ≠ GameStatus.active then
    (Except.error SubmitError.game_completed, db)
  else if ¬ db.roomPlayerPkExists game.room player.id then
    (Except.error SubmitError.player_not_in_game, db)
  else if question.order ≠ game.current_question_index then
    (Except.error SubmitError.invalid_question, db)
  else
  match db.answers.find?
      (fun a => a.question == question.id && a.player == player.id) with
  | some _ => (Except.error SubmitError.answer_already_submitted, db)
  | Option.none =>
  if question.time_limit < time_taken then
    (Except.error SubmitError.time_limit_exceeded, db)
  else if time_taken < 0 then
    (Except.error SubmitError.invalid_time_taken, db)
  else
    let is_correct := pyLower (pyStrip answer_text) ==
      pyLower (pyStrip question.correct_answer)
    let points := calculatePoints is_correct used_hint
    let ans : Answer :=
      { id := db.next_id, question := question.id, player := player.id,
        answer_text := answer_text, is_correct := is_correct,
        used_hint := used_hint, time_taken := time_taken,
        points_earned := points }
    let db1 := { db with answers := db.answers ++ [ans],
                         next_id := db.next_id + 1 }
    let gsdb := getOrCreateScore db1 game.id player.id
    let gs' := gsdb.1.updateScore ans
    let db3 := gsdb.2.setScore gs'
    (Except.ok
      { is_correct := is_correct, points_earned := points,
        total_score := gs'.total_score,
        correct_answer :=
          if is_correct then Option.none else some question.correct_answer },
      db3)

/-! ### Answer submission over WebSocket (`GameRoomConsumer.check_answer`,
apps/websockets/consumers.py lines 587-656) -/

inductive WsError
  | obj_not_found
  | failed
deriving DecidableEq

structure WsAnswerResult where
  player_name : String
  is_correct : Bool
  correct_answer : Option String
  points_earned : Int
  total_score : Int
  already_answered : Bool
deriving DecidableEq

/-- `GameRoomConsumer.check_answer`: the WebSocket answer path, run
inside `transaction.atomic`; a missing row raises `DoesNotExist`, which
escapes the atomic block (rollback) before being turned into an error
result.  Note the absence of any time-limit comparison: `time_taken` is
merely clamped to be non-negative and stored. -/
def wsCheckAnswer (db : DB) (code : String) (pid qid : Nat)
    (answer : String) (time_taken : Int) (used_hint : Bool) :
    Except WsError WsAnswerResult × DB :=
  match db.findRoom code with
  | Option.none => (Except.error WsError.obj_not_found, db)
  | some room =>
  match db.games.find?
      (fun g => g.room == room.id && g.status == GameStatus.active) with
  | Option.none => (Except.error WsError.obj_not_found, db)
  | some game =>
  match db.findPlayer pid with
  | Option.none => (Except.error WsError.obj_not_found, db)
  | some player =>
  match db.questions.find? (fun q => q.id == qid && q.game == game.id) with
  | Option.none => (Except.error WsError.obj_not_found, db)
  | some question =>
  match db.answers.find?
      (fun a => a.question == question.id && a.player == player.id) with
  | some existing =>
    match db.scores.find?
        (fun s => s.game == game.id && s.player == player.id) with
    | Option.none => (Except.error WsError.obj_not_found, db)
    | some gs =>
      (Except.ok
        { player_name := player.username,
          is_correct := existing.is_correct,
          correct_answer :=
            if existing.is_correct then Option.none
            else some question.correct_answer,
          points_earned := existing.points_earned,
          total_score := gs.total_score,
          already_answered := true }, db)
  | Option.none =>
    let is_correct := question.checkAnswer answer
    let points := calculatePoints is_correct used_hint
    let ans : Answer :=
      { id := db.next_id, question := question.id, player := player.id,
        answer_text := answer, is_correct := is_correct,
        used_hint := used_hint, time_taken := max 0 time_taken,
        points_earned := points }
    let db1 := { db with answers := db.answers ++ [ans],
                         next_id := db.next_id + 1 }
    let gsdb := getOrCreateScore db1 game.id player.id
    let gs' := gsdb.1.updateScore ans
    let db3 := gsdb.2.setScore gs'
    match db3.room_players.find?
        (fun rp => rp.room == room.id && rp.player == player.id) with
    | Option.none => (Except.error WsError.obj_not_found, db)
    | some _ =>
      let db4 := { db3 with room_players :=
        db3.room_players.map (fun x =>
          if x.room == room.id && x.player == player.id then
            { x with score := gs'.total_score } else x) }
      (Except.ok
        { player_name := player.username,
          is_correct := is_correct,
          correct_answer :=
            if is_correct then Option.none
            else some question.correct_answer,
          points_earned := points,
          total_score := gs'.total_score,
          already_answered := false }, db4)

/-! ### Starting a game (`RoomStartGameView.post`,
apps/rooms/views.py lines 200-322, and `GameService.start_game` /
`QuestionGeneratorService`, apps/games/services.py) -/

/-- One generated question record as returned by the Question Source
(`QuestionGeneratorService`). -/
structure QData where
  items : List String
  options : List String
  correct_answer : String
  hint : String
deriving DecidableEq

/-- Outcome of the question-generation step inside `startGame`:
`ok` is a successfully created batch, `failed` a
`QuestionGenerationException` (re-raised by the view), and `error` any
other exception (caught by the view's generic handler).  In the source
as written, `error` is the outcome of every run that reaches question
creation: `Question.objects.create` is always called with an `options`
keyword (`services.py` lines 230 and 374) that the `Question` model
does not declare, which raises `TypeError` before any row is
inserted. -/
inductive GenResult
  | ok (qs : List QData)
  | failed
  | error
deriving DecidableEq

inductive StartError
  | not_found
  | not_host
  | insufficient_players
  | game_already_started
  | question_generation_failed
  | game_start_failed
deriving DecidableEq

/-- An event published to the room's channel-layer group. -/
inductive BEvent
  | game_started (question : List (String × PV)) (question_number : Nat)
      (total_questions : Nat)
deriving DecidableEq

/-- `Room.can_start` (`apps/rooms/models.py` lines 79-83). -/
def DB.canStart (db : DB) (r : Room) : Bool :=
  decide (MIN_PLAYERS ≤ db.roomPlayerCount r.id) &&
    (r.status == RoomStatus.waiting)

/-- The rows that `_create_questions_from_data`
(`apps/games/services.py`) attempts to insert: one `Question` per
generated record, `order` = position, `time_limit` from settings,
`correct_answer` and `hint` stripped.  This is the `GenResult.ok`
outcome; in the source's current schema every such
`Question.objects.create(options=...)` call actually raises `TypeError`
(the model has no `options` column), i.e. the run takes the
`GenResult.error` outcome and no row is created. -/
def questionsFromData (gameId baseId : Nat) (qdata : List QData) :
    List Question :=
  qdata.enum.map (fun iq =>
    { id := baseId + iq.1, game := gameId, order := iq.1, text := "",
      items := iq.2.items, options := iq.2.options,
      correct_answer := pyStrip iq.2.correct_answer,
      hint := pyStrip iq.2.hint,
      time_limit := TIME_LIMIT_SECONDS })

/-- `RoomStartGameView.post`, with the question-generation outcome
passed in as `gen`.  The view runs in `transaction.atomic` and its
failure handling is split: a `QuestionGenerationException` (generation
`failed`, or zero questions) is re-raised, so the transaction rolls the
whole operation back and the original store is returned; but any other
exception (`GenResult.error`, e.g. the `TypeError` from the missing
`options` column) is caught by the generic handler, which returns a 500
response — the transaction then commits, persisting the already-created
Game and GameScore rows with the room still `waiting`.  In both failure
cases nothing is broadcast and the error goes only to the requester. -/
def startGame (db : DB) (code : String) (pid : Nat) (gen : GenResult) :
    Except StartError Unit × DB × List BEvent :=
  match db.findRoom code with
  | Option.none => (Except.error StartError.not_found, db, [])
  | some room =>
  match db.findPlayer pid with
  | Option.none => (Except.error StartError.not_found, db, [])
  | some player =>
  if room.host ≠ player.id then (Except.error StartError.not_host, db, [])
  else if ¬ db.canStart room then
    (Except.error StartError.insufficient_players, db, [])
  else if room.status = RoomStatus.in_progress then
    (Except.error StartError.game_already_started, db, [])
  else
    let gameId := db.next_id
    let game : Game :=
      { id := gameId, room := room.id, status := GameStatus.active,
        current_question_index := 0 }
    let db1 := { db with games := db.games ++ [game],
                         next_id := db.next_id + 1 }
    let members := db1.room_players.filter (fun rp => rp.room == room.id)
    let newScores := members.enum.map (fun irp =>
      ({ game := gameId, player := irp.2.player, total_score := 0,
         correct_answers := 0, wrong_answers := 0, rank := Option.none,
         created_at := db1.next_id + irp.1 } : GameScore))
    let db2 := { db1 with scores := db1.scores ++ newScores,
                          next_id := db1.next_id + members.length }
    match gen with
    | GenResult.failed =>
      (Except.error StartError.question_generation_failed, db, [])
    | GenResult.error =>
      (Except.error StartError.game_start_failed, db2, [])
    | GenResult.ok qdata =>
      if qdata.isEmpty then
        (Except.error StartError.question_generation_failed, db, [])
      else
        let newQs := questionsFromData gameId db2.next_id qdata
        let db3 := { db2 with questions := db2.questions ++ newQs,
                              next_id := db2.next_id + qdata.length }
        let db4 := { db3 with rooms := db3.rooms.map (fun r =>
          if r.id == room.id then
            { r with status := RoomStatus.in_progress,
                     current_game := some gameId }
          else r) }
        let events :=
          match db4.questionAt gameId 0 with
          | some q =>
            [BEvent.game_started (httpGameStartedQuestionPayload q) 1
              (db4.totalQuestions gameId)]
          | Option.none => []
        (Except.ok (), db4, events)

/-! ### Question advancing (`Game.next_question` / `Game.complete_game`,
apps/games/models.py lines 72-95, and `GameRoomConsumer.get_next_question`,
apps/websockets/consumers.py lines 658-693) -/

/-- `Game.complete_game`: a no-op when the game is already completed;
otherwise persists `status` on the game row (an `update_fields` save, so
the stored `current_question_index` is untouched) and marks the room
completed.  Returns the store and the mutated in-memory object. -/
def completeGame (db : DB) (g : Game) : DB × Game :=
  if g.status = GameStatus.completed then (db, g)
  else
    let db1 := { db with games := db.games.map (fun x : Game =>
      if x.id == g.id then { x with status := GameStatus.completed } else x) }
    let db2 := { db1 with rooms := db1.rooms.map (fun r : Room =>
      if r.id == g.room then { r with status := RoomStatus.completed } else r) }
    (db2, { g with status := GameStatus.completed })

/-- `Game.next_question`: increment the in-memory index; at or past the
end, complete the game and return no question (the incremented index is
not persisted — the save with `update_fields` happens only in the other
branch); otherwise persist the new index and return the question there.
Returns (question option, store, in-memory game object). -/
def gameNextQuestion (db : DB) (g : Game) : Option Question × DB × Game :=
  let idx := g.current_question_index + 1
  let gMem := { g with current_question_index := idx }
  if db.totalQuestions g.id ≤ idx then
    let r := completeGame db gMem
    (Option.none, r.1, r.2)
  else
    let db1 := { db with games := db.games.map (fun x =>
      if x.id == g.id then { x with current_question_index := idx } else x) }
    (db.questionAt g.id idx, db1, gMem)

/-- Result of the WebSocket `next_question` operation. -/
inductive WsNext
  | complete
  | question (payload : List (String × PV)) (question_number : Nat)
      (total_questions : Nat)
  | err
deriving DecidableEq

/-- `GameRoomConsumer.get_next_question`: fetch the room and its active
game (an already-completed game makes this lookup raise `DoesNotExist`,
reported as the error result), advance via `Game.next_question`; on
completion the consumer re-saves the whole in-memory game object. -/
def wsGetNextQuestion (db : DB) (code : String) : WsNext × DB :=
  match db.findRoom code with
  | Option.none => (WsNext.err, db)
  | some room =>
  match db.games.find?
      (fun g => g.room == room.id && g.status == GameStatus.active) with
  | Option.none => (WsNext.err, db)
  | some game =>
    let r := gameNextQuestion db game
    match r.1 with
    | Option.none =>
      let gMem := { r.2.2 with status := GameStatus.completed }
      let db2 := { r.2.1 with games := r.2.1.games.map (fun x =>
        if x.id == game.id then gMem else x) }
      (WsNext.complete, db2)
    | some q =>
      (WsNext.question (wsNextQuestionQuestionPayload q)
        (r.2.2.current_question_index + 1)
        (r.2.1.totalQuestions game.id), r.2.1)

/-! ### Ranking (`GameService.calculate_final_rankings`,
apps/games/services.py lines 447-489, and `GameLeaderboardView.get`,
apps/games/views.py lines 189-234) -/

/-- The ordering of `order_by('-total_score', 'created_at')`:
descending total score, ties broken by ascending creation time. -/
def scoreOrder (a b : GameScore) : Prop :=
  b.total_score < a.total_score ∨
    (b.total_score = a.total_score ∧ a.created_at ≤ b.created_at)

instance : DecidableRel scoreOrder := fun a b =>
  inferInstanceAs (Decidable (b.total_score < a.total_score ∨
    (b.total_score = a.total_score ∧ a.created_at ≤ b.created_at)))

instance : IsTotal GameScore scoreOrder := by
  constructor
  intro a b
  rcases lt_trichotomy a.total_score b.total_score with h | h | h
  · exact Or.inr (Or.inl h)
  · rcases Nat.le_total a.created_at b.created_at with h2 | h2
    · exact Or.inl (Or.inr ⟨h.symm, h2⟩)
    · exact Or.inr (Or.inr ⟨h, h2⟩)
  · exact Or.inl (Or.inl h)

instance : IsTrans GameScore scoreOrder := by
  constructor
  intro a b c hab hbc
  rcases hab with hab | ⟨hab, hab2⟩
  · rcases hbc with hbc | ⟨hbc, _⟩
    · exact Or.inl (lt_trans hbc hab)
    · exact Or.inl (hbc ▸ hab)
  · rcases hbc with hbc | ⟨hbc, hbc2⟩
    · exact Or.inl (hab ▸ hbc)
    · exact Or.inr ⟨hbc.trans hab, le_trans hab2 hbc2⟩

/-- The stable sort performed by the ranking queryset. -/
def sortScores (l : List GameScore) : List GameScore :=
  List.insertionSort scoreOrder l

/-- The rank taken by the next score given the loop state of
`calculate_final_rankings` (previous score, current rank, 1-based
position counter): the rank jumps to the position counter exactly when
the score strictly drops. -/
def rankOf (prev : Option Int) (current counter : Nat) (s : GameScore) : Nat :=
  match prev with
  | Option.none => current
  | some p => if s.total_score < p then counter else current

/-- The rank-assignment loop of `calculate_final_rankings`
(state: previous score, current rank, 1-based position counter). -/
def assignRanksAux (prev : Option Int) (current counter : Nat) :
    List GameScore → List (GameScore × Nat)
  | [] => []
  | s :: rest =>
    (s, rankOf prev current counter s) ::
      assignRanksAux (some s.total_score) (rankOf prev current counter s)
        (counter + 1) rest

def assignRanks (l : List GameScore) : List (GameScore × Nat) :=
  assignRanksAux Option.none 1 1 l

/-- `GameService.calculate_final_rankings`: sort, then assign
competition ranks. -/
def calculateFinalRankings (scores : List GameScore) :
    List (GameScore × Nat) :=
  assignRanks (sortScores scores)

/-- How many scores in `l` are strictly above the value `s`. -/
def countAbove (l : List GameScore) (s : Int) : Nat :=
  l.countP (fun t => decide (s < t.total_score))

/-! ### Concrete scenarios used by counterexamples and witnesses -/

def alice : Player := { id := 1, username := "alice" }

def bob : Player := { id := 2, username := "bob" }

def franceQuestion : Question :=
  { id := 100, game := 50, order := 0, text := "",
    items := ["Paris", "Eiffel", "Croissant", "Louvre"],
    options := ["France", "Italy", "Spain", "Germany"],
    correct_answer := "France", hint := "European country",
    time_limit := 30 }

/-- An in-progress room with an active one-question game and no answers
yet. -/
def dbActive : DB :=
  { rooms := [{ id := 5, code := "R2", host := 1,
                status := RoomStatus.in_progress, max_players := 6,
                current_game := some 50 }],
    room_players := [{ id := 901, room := 5, player := 1,
                       is_ready := false, score := 0 },
                     { id := 902, room := 5, player := 2,
                       is_ready := false, score := 0 }],
    players := [alice, bob],
    games := [{ id := 50, room := 5, status := GameStatus.active,
                current_question_index := 0 }],
    questions := [franceQuestion],
    answers := [],
    scores := [],
    next_id := 200 }

/-- The same room after its game completed. -/
def dbCompleted : DB :=
  { rooms := [{ id := 6, code := "R6", host := 1,
                status := RoomStatus.completed, max_players := 6,
                current_game := some 60 }],
    room_players := [{ id := 931, room := 6, player := 1,
                       is_ready := false, score := 0 }],
    players := [alice],
    games := [{ id := 60, room := 6, status := GameStatus.completed,
                current_question_index := 0 }],
    questions := [{ franceQuestion with id := 101, game := 60 }],
    answers := [],
    scores := [],
    next_id := 300 }

def parisQuestion : Question :=
  { id := 1, game := 1, order := 0, text := "",
    items := ["a", "b", "c", "d"], options := [],
    correct_answer := "Paris", hint := "", time_limit := 30 }

def mkScore (c w : ℕ) : GameScore :=
  { game := 0, player := 0, total_score := 0, correct_answers := c,
    wrong_answers := w, rank := Option.none, created_at := 0 }

/-- Three scores 100, 100, 80 (the spec's ranking example). -/
def exampleScores : List GameScore :=
  [{ game := 1, player := 1, total_score := 100, correct_answers := 0,
     wrong_answers := 0, rank := Option.none, created_at := 1 },
   { game := 1, player := 2, total_score := 100, correct_answers := 0,
     wrong_answers := 0, rank := Option.none, created_at := 2 },
   { game := 1, player := 3, total_score := 80, correct_answers := 0,
     wrong_answers := 0, rank := Option.none, created_at := 3 }]

/-- Specification-side accuracy, written from the spec's words:
`correct / (correct+wrong) * 100`, rounded to 2 decimals, `0` if no
answers yet. -/
def specAccuracy (correct wrong : ℕ) : ℚ :=
  if correct + wrong = 0 then 0
  else round2 (((correct : ℚ) / ((correct : ℚ) + (wrong : ℚ))) * 100)

/-- The hard invariant of the `answers` table: at most one row per
(question, player) pair. -/
def atMostOneAnswerPerPair (db : DB) : Prop :=
  ∀ qid pid : Nat,
    (db.answers.filter
      (fun a => a.question == qid && a.player == pid)).length ≤ 1

def carol : Player := { id := 3, username := "carol" }

/-- The active scenario after bob has already answered the question. -/
def dbAnswered : DB :=
  { dbActive with
    answers := [{ id := 150, question := 100, player := 2,
                  answer_text := "Italy", is_correct := false,
                  used_hint := false, time_taken := 10,
                  points_earned := 0 }],
    scores := [{ game := 50, player := 2, total_score := 0,
                 correct_answers := 0, wrong_answers := 1,
                 rank := Option.none, created_at := 5 }] }

/-- A waiting two-member room whose host is alice. -/
def dbWaiting : DB :=
  { rooms := [{ id := 7, code := "R7", host := 1,
                status := RoomStatus.waiting, max_players := 6,
                current_game := Option.none }],
    room_players := [{ id := 911, room := 7, player := 1,
                       is_ready := false, score := 0 },
                     { id := 912, room := 7, player := 2,
                       is_ready := false, score := 0 }],
    players := [alice, bob],
    games := [], questions := [], answers := [], scores := [],
    next_id := 400 }

/-- A waiting room already at capacity (2 members, max_players = 2). -/
def dbFull : DB :=
  { rooms := [{ id := 8, code := "R8", host := 1,
                status := RoomStatus.waiting, max_players := 2,
                current_game := Option.none }],
    room_players := [{ id := 921, room := 8, player := 1,
                       is_ready := false, score := 0 },
                     { id := 922, room := 8, player := 2,
                       is_ready := false, score := 0 }],
    players := [alice, bob, carol],
    games := [], questions := [], answers := [], scores := [],
    next_id := 500 }

/-- Claim C1: the spec says every `game_started` / `next_question`
broadcast question object carries only id, order, items, options, hint
and time_limit and never `correct_answer`; but the `next_question`
payload built by `GameRoomConsumer.get_next_question` always contains
the `correct_answer` key (while the HTTP `game_started` payload indeed
never does). -/
theorem wsNextQuestion_payload_contains_correct_answer :
    ∀ q : Question,
      "correct_answer" ∈ (wsNextQuestionQuestionPayload q).map Prod.fst ∧
      "correct_answer" ∉ specQuestionKeys ∧
      "correct_answer" ∉ (httpGameStartedQuestionPayload q).map Prod.fst := by
  intro q
  refine ⟨?_, by decide, ?_⟩
  · show "correct_answer" ∈
      ["id", "order", "text", "items", "hint", "time_limit", "correct_answer"]
    decide
  · show "correct_answer" ∉
      ["id", "order", "items", "options", "hint", "time_limit"]
    decide

/-- Claim C8: answer checking is exact string equality after trimming
leading/trailing whitespace and lowercasing both sides, and in
particular accepts a submission of two-spaces-Paris-space against the
stored answer Paris, while rejecting a near-miss. -/
theorem checkAnswer_trim_lowercase_exact :
    (∀ (q : Question) (a : String),
        q.checkAnswer a = true ↔
          pyLower (pyStrip a) = pyLower (pyStrip q.correct_answer)) ∧
    parisQuestion.checkAnswer "  Paris " = true ∧
    parisQuestion.checkAnswer "Pariss" = false := by
  refine ⟨?_, by rfl, by rfl⟩
  intro q a
  simp [Question.checkAnswer]

/-- Claim C9: accuracy is `correct / (correct + wrong) * 100` rounded to
two decimals, and is 0 (with no division performed) when there are no
answers. -/
theorem accuracy_matches_spec :
    (∀ gs : GameScore,
        gs.accuracy = specAccuracy gs.correct_answers gs.wrong_answers) ∧
    (mkScore 0 0).accuracy = 0 := by
  constructor
  · intro gs
    by_cases h : gs.correct_answers + gs.wrong_answers = 0
    · simp [GameScore.accuracy, specAccuracy, h]
    · simp [GameScore.accuracy, specAccuracy, h, Nat.cast_add]
  · rfl

/-- Claim C2 counterexample: over the WebSocket path a submission with
`time_taken = 35` against `time_limit = 30` is not rejected — the
consumer records an Answer row (with the excess time) and scores it. -/
theorem wsAnswer_ignores_time_limit :
    franceQuestion.time_limit < 35 ∧
    (wsCheckAnswer dbActive "R2" 2 100 "Italy" 35 false).2.answers.length
      = dbActive.answers.length + 1 ∧
    (wsCheckAnswer dbActive "R2" 2 100 "Italy" 35 false).1 =
      Except.ok { player_name := "bob", is_correct := false,
                  correct_answer := some "France", points_earned := 0,
                  total_score := 0, already_answered := false } := by
  exact ⟨by decide, by rfl, by rfl⟩

/-- Claim C6 counterexample: a WebSocket `next_question` request against
a room whose game is already completed does not return the terminal
"game complete" result again — the active-game lookup fails and the
handler reports an error. -/
theorem wsAdvance_completed_game_errors :
    wsGetNextQuestion dbCompleted "R6" = (WsNext.err, dbCompleted) := by
  rfl

/-! ### Lemmas about the rank-assignment loop -/

theorem countAbove_append (l1 l2 : List GameScore) (s : Int) :
    countAbove (l1 ++ l2) s = countAbove l1 s + countAbove l2 s := by
  unfold countAbove
  exact List.countP_append _ _ _

theorem countAbove_cons (t : GameScore) (l : List GameScore) (s : Int) :
    countAbove (t :: l) s
      = countAbove l s + (if s < t.total_score then 1 else 0) := by
  unfold countAbove
  rw [List.countP_cons]
  by_cases h : s < t.total_score <;> simp [h]

theorem countAbove_eq_length {l : List GameScore} {s : Int}
    (h : ∀ x ∈ l, s < x.total_score) : countAbove l s = l.length := by
  unfold countAbove
  rw [List.countP_eq_length]
  intro a ha
  exact decide_eq_true (h a ha)

theorem countAbove_eq_zero {l : List GameScore} {s : Int}
    (h : ∀ x ∈ l, x.total_score ≤ s) : countAbove l s = 0 := by
  unfold countAbove
  rw [List.countP_eq_zero]
  intro a ha
  simp only [decide_eq_true_eq, not_lt]
  exact h a ha

theorem assignRanksAux_map_fst (l : List GameScore) :
    ∀ prev current counter,
      (assignRanksAux prev current counter l).map Prod.fst = l := by
  induction l with
  | nil => intro prev current counter; rfl
  | cons s rest ih =>
    intro prev current counter
    simp [assignRanksAux, ih]

theorem assignRanks_map_fst (l : List GameScore) :
    (assignRanks l).map Prod.fst = l :=
  assignRanksAux_map_fst l Option.none 1 1

theorem assignRanksAux_ranks (l : List GameScore) :
    ∀ (seen : List GameScore) (p : GameScore),
      (∀ x ∈ seen, p.total_score ≤ x.total_score) →
      List.Pairwise (fun a b => b.total_score ≤ a.total_score) (p :: l) →
      (assignRanksAux (some p.total_score)
          (1 + countAbove seen p.total_score) (seen.length + 2) l).map
        Prod.snd
        = l.map (fun s => 1 + countAbove (seen ++ p :: l) s.total_score) := by
  induction l with
  | nil => intro seen p _ _; rfl
  | cons s rest ih =>
    intro seen p hseen hsort
    rw [List.pairwise_cons] at hsort
    have hps : s.total_score ≤ p.total_score :=
      hsort.1 s (List.mem_cons_self s rest)
    have hsort' := hsort.2
    rw [List.pairwise_cons] at hsort'
    have hrest : ∀ y ∈ rest, y.total_score ≤ s.total_score := hsort'.1
    simp only [assignRanksAux, List.map_cons, rankOf]
    by_cases hlt : s.total_score < p.total_score
    · rw [if_pos hlt]
      have hcseen : countAbove seen s.total_score = seen.length :=
        countAbove_eq_length (fun x hx => lt_of_lt_of_le hlt (hseen x hx))
      have hcrest : countAbove (s :: rest) s.total_score = 0 := by
        refine countAbove_eq_zero ?_
        intro x hx
        rcases List.mem_cons.mp hx with rfl | h
        · exact le_refl _
        · exact hrest x h
      refine List.cons_eq_cons.mpr ⟨?_, ?_⟩
      · rw [countAbove_append, countAbove_cons, hcrest, hcseen]
        rw [if_pos hlt]
        omega
      · have ihl := ih (seen ++ [p]) s
          (by
            intro x hx
            rcases List.mem_append.mp hx with h | h
            · exact le_trans hps (hseen x h)
            · rcases List.mem_singleton.mp h with rfl
              exact hps)
          (List.Pairwise.cons hrest hsort'.2)
        have e1 : 1 + countAbove (seen ++ [p]) s.total_score
            = seen.length + 2 := by
          rw [countAbove_append, countAbove_cons, countAbove_eq_zero
            (l := []) (fun x hx => absurd hx (List.not_mem_nil x)),
            hcseen, if_pos hlt]
          omega
        have e2 : (seen ++ [p]).length + 2 = seen.length + 2 + 1 := by
          simp
        have e3 : (seen ++ [p]) ++ s :: rest = seen ++ p :: s :: rest := by
          simp
        rw [e1, e2, e3] at ihl
        exact ihl
    · rw [if_neg hlt]
      have heq : s.total_score = p.total_score :=
        le_antisymm hps (not_lt.mp hlt)
      have hcrest : countAbove (p :: s :: rest) s.total_score = 0 := by
        refine countAbove_eq_zero ?_
        intro x hx
        rcases List.mem_cons.mp hx with rfl | h
        · exact le_of_eq heq.symm
        · rcases List.mem_cons.mp h with rfl | h2
          · exact le_refl _
          · exact hrest x h2
      refine List.cons_eq_cons.mpr ⟨?_, ?_⟩
      · rw [countAbove_append, hcrest, heq]
        omega
      · have ihl := ih (seen ++ [p]) s
          (by
            intro x hx
            rcases List.mem_append.mp hx with h | h
            · exact le_trans hps (hseen x h)
            · rcases List.mem_singleton.mp h with rfl
              exact hps)
          (List.Pairwise.cons hrest hsort'.2)
        have e1 : 1 + countAbove (seen ++ [p]) s.total_score
            = 1 + countAbove seen p.total_score := by
          rw [countAbove_append, countAbove_cons, countAbove_eq_zero
            (l := []) (fun x hx => absurd hx (List.not_mem_nil x)),
            if_neg hlt, heq]
          omega
        have e2 : (seen ++ [p]).length + 2 = seen.length + 2 + 1 := by
          simp
        have e3 : (seen ++ [p]) ++ s :: rest = seen ++ p :: s :: rest := by
          simp
        rw [e1, e2, e3] at ihl
        exact ihl

theorem assignRanks_ranks (l : List GameScore)
    (hl : List.Pairwise (fun a b => b.total_score ≤ a.total_score) l) :
    (assignRanks l).map Prod.snd
      = l.map (fun s => 1 + countAbove l s.total_score) := by
  cases l with
  | nil => rfl
  | cons p rest =>
    have hp : ∀ y ∈ rest, y.total_score ≤ p.total_score :=
      (List.pairwise_cons.mp hl).1
    simp only [assignRanks, assignRanksAux, rankOf, List.map_cons]
    refine List.cons_eq_cons.mpr ⟨?_, ?_⟩
    · have h0 : countAbove (p :: rest) p.total_score = 0 := by
        refine countAbove_eq_zero ?_
        intro x hx
        rcases List.mem_cons.mp hx with rfl | h
        · exact le_refl _
        · exact hp x h
      rw [h0]
    · have ihl := assignRanksAux_ranks rest [] p
        (fun x hx => absurd hx (List.not_mem_nil x)) hl
      simpa using ihl

/-- Claim C5: `calculate_final_rankings` sorts descending by total
score with ties broken by ascending creation time, and assigns standard
competition ranks — each entry's rank is one more than the number of
strictly higher scores in the sorted list, so equal scores share a rank
and the next distinct score's rank is its 1-based position; the scores
100, 100, 80 receive ranks 1, 1, 3. -/
theorem calculateFinalRankings_competition :
    (∀ scores : List GameScore,
      ((calculateFinalRankings scores).map Prod.fst).Pairwise scoreOrder ∧
      (calculateFinalRankings scores).map Prod.fst = sortScores scores ∧
      (calculateFinalRankings scores).map Prod.snd
        = (sortScores scores).map
            (fun s => 1 + countAbove (sortScores scores) s.total_score) ∧
      (∀ pr ∈ calculateFinalRankings scores,
        pr.2 = 1 + countAbove (sortScores scores) pr.1.total_score) ∧
      (∀ pr ∈ calculateFinalRankings scores,
        ∀ pr' ∈ calculateFinalRankings scores,
          pr.1.total_score = pr'.1.total_score → pr.2 = pr'.2)) ∧
    (calculateFinalRankings exampleScores).map Prod.snd = [1, 1, 3] := by
  constructor
  · intro scores
    have hsorted : List.Pairwise scoreOrder (sortScores scores) :=
      List.sorted_insertionSort scoreOrder scores
    have hdesc : List.Pairwise
        (fun a b => b.total_score ≤ a.total_score) (sortScores scores) := by
      refine hsorted.imp ?_
      intro a b hab
      rcases hab with h | ⟨h, _⟩
      · exact le_of_lt h
      · exact le_of_eq h
    have hfst : (calculateFinalRankings scores).map Prod.fst
        = sortScores scores := assignRanks_map_fst (sortScores scores)
    have hsnd : (calculateFinalRankings scores).map Prod.snd
        = (sortScores scores).map
            (fun s => 1 + countAbove (sortScores scores) s.total_score) :=
      assignRanks_ranks (sortScores scores) hdesc
    have hlen : (sortScores scores).length
        = (calculateFinalRankings scores).length := by
      rw [← hfst, List.length_map]
    have hkey : ∀ pr ∈ calculateFinalRankings scores,
        pr.2 = 1 + countAbove (sortScores scores) pr.1.total_score := by
      intro pr hpr
      obtain ⟨i, hi, rfl⟩ := List.mem_iff_getElem.mp hpr
      have hi' : i < (sortScores scores).length := by rw [hlen]; exact hi
      have h1 := congrArg (fun l => l[i]?) hsnd
      have h2 := congrArg (fun l => l[i]?) hfst
      simp only [List.getElem?_map, List.getElem?_eq_getElem hi,
        List.getElem?_eq_getElem hi', Option.map_some'] at h1 h2
      rw [Option.some.injEq] at h1 h2
      rw [h1, h2]
    refine ⟨?_, hfst, hsnd, hkey, ?_⟩
    · rw [hfst]; exact hsorted
    · intro pr hpr pr' hpr' hscore
      rw [hkey pr hpr, hkey pr' hpr', hscore]
  · rfl

/-- Witness for claim C5: in the 100, 100, 80 example the two
100-score entries are both ranked and, having equal total scores,
receive the same rank. -/
theorem calculateFinalRankings_competition_witness :
    (({ game := 1, player := 1, total_score := 100, correct_answers := 0,
        wrong_answers := 0, rank := Option.none, created_at := 1 },
      1) : GameScore × Nat) ∈ calculateFinalRankings exampleScores ∧
    (({ game := 1, player := 2, total_score := 100, correct_answers := 0,
        wrong_answers := 0, rank := Option.none, created_at := 2 },
      1) : GameScore × Nat) ∈ calculateFinalRankings exampleScores ∧
    (1 : Nat) = 1 := by
  refine ⟨by decide, by decide, ?_⟩
  exact ((calculateFinalRankings_competition.1 exampleScores).2.2.2.2)
    ({ game := 1, player := 1, total_score := 100, correct_answers := 0,
       wrong_answers := 0, rank := Option.none, created_at := 1 }, 1)
    (by decide)
    ({ game := 1, player := 2, total_score := 100, correct_answers := 0,
       wrong_answers := 0, rank := Option.none, created_at := 2 }, 1)
    (by decide) (by decide)

/-- Claim C7: joining a waiting room that is at or over capacity fails
with RoomFull and changes nothing, and a join never pushes the member
count of the addressed room above max_players. -/
theorem join_capacity_invariant :
    (∀ (db : DB) (code : String) (pid : Nat) (room : Room) (player : Player),
      db.findRoom code = some room →
      db.findPlayer pid = some player →
      room.status = RoomStatus.waiting →
      room.max_players ≤ db.roomPlayerCount room.id →
      joinRoom db code pid = (Except.error JoinError.room_full, db)) ∧
    (∀ (db : DB) (code : String) (pid : Nat) (room : Room),
      db.findRoom code = some room →
      db.roomPlayerCount room.id ≤ room.max_players →
      (joinRoom db code pid).2.roomPlayerCount room.id
        ≤ room.max_players) := by
  constructor
  · intro db code pid room player h1 h2 h3 h4
    unfold joinRoom
    rw [h1, h2]
    dsimp only
    rw [if_neg (by simp [h3]),
      if_pos (by simp only [DB.isFull, decide_eq_true_eq]; exact h4)]
  · intro db code pid room h1 h2
    unfold joinRoom
    rw [h1]
    dsimp only
    cases hp : db.findPlayer pid with
    | none => simpa using h2
    | some player =>
      dsimp only
      by_cases hs : room.status ≠ RoomStatus.waiting
      · rw [if_pos hs]; simpa using h2
      · rw [if_neg hs]
        by_cases hf : db.isFull room = true
        · rw [if_pos hf]; simpa using h2
        · rw [if_neg hf]
          cases hm : db.room_players.find?
              (fun rp => rp.room == room.id && rp.player == player.id) with
          | some rp => simpa using h2
          | none =>
            have hlt : db.roomPlayerCount room.id < room.max_players := by
              have := hf
              simp only [DB.isFull, decide_eq_true_eq] at this
              omega
            have hcount :
                DB.roomPlayerCount
                  { db with
                      room_players := db.room_players ++
                        [{ id := db.next_id, room := room.id,
                           player := player.id, is_ready := false,
                           score := 0 }],
                      next_id := db.next_id + 1 } room.id
                  = db.roomPlayerCount room.id + 1 := by
              unfold DB.roomPlayerCount
              rw [List.filter_append]
              simp
            dsimp only
            rw [hcount]
            omega

/-- Witness for claim C7: carol's join of the full room R8 is refused
with RoomFull, and the member count stays at the cap of 2. -/
theorem join_capacity_invariant_witness :
    joinRoom dbFull "R8" 3 = (Except.error JoinError.room_full, dbFull) ∧
    (joinRoom dbFull "R8" 3).2.roomPlayerCount 8 ≤ 2 := by
  constructor
  · exact join_capacity_invariant.1 dbFull "R8" 3 _ _ (by rfl) (by rfl)
      (by rfl) (by decide)
  · exact join_capacity_invariant.2 dbFull "R8" 3 _ (by rfl) (by decide)

/-- Claim C10: a second join by an existing member of a waiting,
non-full room succeeds and leaves the store byte-for-byte unchanged —
no second membership row, and the existing row's ready flag and score
untouched. -/
theorem join_idempotent_existing_member :
    ∀ (db : DB) (code : String) (pid : Nat) (room : Room) (player : Player)
      (rp : RoomPlayer),
      db.findRoom code = some room →
      db.findPlayer pid = some player →
      room.status = RoomStatus.waiting →
      db.isFull room = false →
      db.room_players.find?
        (fun x => x.room == room.id && x.player == player.id) = some rp →
      joinRoom db code pid = (Except.ok room, db) := by
  intro db code pid room player rp h1 h2 h3 h4 h5
  unfold joinRoom
  rw [h1, h2]
  dsimp only
  rw [if_neg (by simp [h3]), if_neg (by simp [h4]), h5]

/-- Witness for claim C10: alice, already a member of waiting room R7,
joins again; the call succeeds and the store is unchanged. -/
theorem join_idempotent_existing_member_witness :
    joinRoom dbWaiting "R7" 1 =
      (Except.ok { id := 7, code := "R7", host := 1,
                   status := RoomStatus.waiting, max_players := 6,
                   current_game := Option.none }, dbWaiting) := by
  exact join_idempotent_existing_member dbWaiting "R7" 1 _ _ _ (by rfl)
    (by rfl) (by rfl) (by rfl) (by rfl)

/-- Supporting fact: on the `QuestionGenerationException` paths
(generation `failed`, or an empty batch) the view re-raises and the
transaction rolls everything back, so the store is returned unchanged
and nothing is broadcast.  This is the only failure mode the source
handles all-or-nothing — see the next theorem for the generic-error
path that is not. -/
theorem startGame_rollback_on_generation_failure :
    ∀ (db : DB) (code : String) (pid : Nat) (gen : GenResult)
      (room : Room) (player : Player),
      db.findRoom code = some room →
      db.findPlayer pid = some player →
      room.host = player.id →
      db.canStart room = true →
      (gen = GenResult.failed ∨ gen = GenResult.ok []) →
      startGame db code pid gen
        = (Except.error StartError.question_generation_failed, db, []) := by
  intro db code pid gen room player h1 h2 h3 h4 h5
  unfold startGame
  rw [h1]
  dsimp only
  rw [h2]
  dsimp only
  have hw : room.status = RoomStatus.waiting := by
    have := h4
    simp only [DB.canStart, Bool.and_eq_true, beq_iff_eq,
      decide_eq_true_eq] at this
    exact this.2
  rw [if_neg (by simp [h3]), if_neg (by simp [h4]),
    if_neg (by simp [hw])]
  rcases h5 with rfl | rfl
  · rfl
  · rfl

/-- Instance of the previous theorem: a `QuestionGenerationException`
on waiting room R7 leaves the store exactly as it was and publishes
nothing. -/
theorem startGame_rollback_witness :
    startGame dbWaiting "R7" 1 GenResult.failed
      = (Except.error StartError.question_generation_failed,
         dbWaiting, []) := by
  exact startGame_rollback_on_generation_failure dbWaiting "R7" 1
    GenResult.failed _ _ (by rfl) (by rfl) (by rfl) (by rfl) (Or.inl rfl)

/-- Claim C3: the claim says a failed question generation is
all-or-nothing, with the room left `waiting` and zero Game, Question or
GameScore rows persisted.  The code violates this on the failure mode
it actually produces: question creation raises a generic error (the
`Question` model has no `options` column, so every
`Question.objects.create(options=...)` raises `TypeError`), the view's
generic handler returns a 500 response instead of re-raising, and the
transaction commits — here the host's start of waiting room R7 ends in
an error yet persists an orphan active Game row and two GameScore rows
with zero questions while the room stays `waiting`. -/
theorem startGame_commits_orphan_rows :
    (startGame dbWaiting "R7" 1 GenResult.error).1
      = Except.error StartError.game_start_failed ∧
    (startGame dbWaiting "R7" 1 GenResult.error).2.1.games
      = [{ id := 400, room := 7, status := GameStatus.active,
           current_question_index := 0 }] ∧
    (startGame dbWaiting "R7" 1 GenResult.error).2.1.scores.length = 2 ∧
    (startGame dbWaiting "R7" 1 GenResult.error).2.1.questions = [] ∧
    (startGame dbWaiting "R7" 1 GenResult.error).2.1.rooms
      = dbWaiting.rooms ∧
    (startGame dbWaiting "R7" 1 GenResult.error).2.2 = [] := by
  refine ⟨rfl, rfl, rfl, rfl, rfl, rfl⟩

/-- Claim C6 (amended): at the model level `Game.next_question` on an
already-completed game is an idempotent no-op — it reports "no next
question" and leaves the store unchanged, so every repeated call gives
the same terminal result and nothing is re-broadcast; the WebSocket
handler, however, answers a `next_question` request for a room without
an active game with an error result rather than the terminal result. -/
theorem nextQuestion_completed_idempotent :
    (∀ (db : DB) (g : Game),
      g.status = GameStatus.completed →
      db.totalQuestions g.id ≤ g.current_question_index + 1 →
      gameNextQuestion db g
        = (Option.none, db,
           { g with current_question_index :=
               g.current_question_index + 1 })) ∧
    (∀ (db : DB) (code : String) (room : Room),
      db.findRoom code = some room →
      db.games.find? (fun g => g.room == room.id &&
        g.status == GameStatus.active) = Option.none →
      wsGetNextQuestion db code = (WsNext.err, db)) := by
  constructor
  · intro db g h1 h2
    unfold gameNextQuestion completeGame
    dsimp only
    rw [if_pos h2, if_pos (show ({ g with current_question_index :=
      g.current_question_index + 1 } : Game).status
        = GameStatus.completed from h1)]
  · intro db code room h1 h2
    unfold wsGetNextQuestion
    rw [h1]
    dsimp only
    rw [h2]

/-- Witness for claim C6: on the completed game of room R6 the model
advance is a no-op returning no next question, while the WebSocket
handler returns the error result. -/
theorem nextQuestion_completed_idempotent_witness :
    gameNextQuestion dbCompleted
        { id := 60, room := 6, status := GameStatus.completed,
          current_question_index := 0 }
      = (Option.none, dbCompleted,
         { id := 60, room := 6, status := GameStatus.completed,
           current_question_index := 1 }) ∧
    wsGetNextQuestion dbCompleted "R6" = (WsNext.err, dbCompleted) := by
  constructor
  · exact nextQuestion_completed_idempotent.1 dbCompleted _ (by rfl)
      (by decide)
  · exact nextQuestion_completed_idempotent.2 dbCompleted "R6" _ (by rfl)
      (by rfl)

/-! ### Projection helpers for the answer-submission transactions -/

theorem setScore_answers (x : DB) (gs : GameScore) :
    (x.setScore gs).answers = x.answers := rfl

theorem setScore_room_players (x : DB) (gs : GameScore) :
    (x.setScore gs).room_players = x.room_players := rfl

theorem getOrCreateScore_answers (db : DB) (g p : Nat) :
    (getOrCreateScore db g p).2.answers = db.answers := by
  unfold getOrCreateScore
  cases db.scores.find? (fun s => s.game == g && s.player == p) <;> rfl

theorem getOrCreateScore_room_players (db : DB) (g p : Nat) :
    (getOrCreateScore db g p).2.room_players = db.room_players := by
  unfold getOrCreateScore
  cases db.scores.find? (fun s => s.game == g && s.player == p) <;> rfl

/-- Appending one answer for a pair that has no row yet keeps the
at-most-one-per-pair property of the answers table. -/
theorem atMostOne_filter_append {l : List Answer} {ans : Answer}
    (hfind : l.find? (fun x => x.question == ans.question &&
      x.player == ans.player) = Option.none)
    (hl : ∀ q p : Nat, (l.filter (fun x => x.question == q &&
      x.player == p)).length ≤ 1) :
    ∀ q p : Nat, ((l ++ [ans]).filter (fun x => x.question == q &&
      x.player == p)).length ≤ 1 := by
  intro q p
  rw [List.filter_append, List.length_append]
  by_cases hqa : (ans.question == q && ans.player == p) = true
  · have hq : ans.question = q ∧ ans.player = p := by
      simpa [Bool.and_eq_true, beq_iff_eq] using hqa
    have hfl : l.filter (fun x => x.question == q && x.player == p)
        = [] := by
      rw [List.filter_eq_nil_iff]
      intro x hx
      have hnone := List.find?_eq_none.mp hfind x hx
      rw [← hq.1, ← hq.2]
      simpa using hnone
    rw [hfl]
    simp [hqa]
  · have h2 : List.filter (fun x => x.question == q && x.player == p)
        [ans] = [] := by simp [hqa]
    rw [h2]
    simpa using hl q p

/-- Claim C2 (amended): no path ever rejects a submission with
TimeLimitExceeded in practice.  The WebSocket handler performs no
time-limit check at all and records an Answer row (with the time
clamped to be non-negative) for any time_taken whatsoever; the HTTP
endpoint rejects every submission — over-limit or not — earlier with
player_not_in_game and an unchanged store, because its membership guard
filters the RoomPlayer rows' integer primary keys by the player's UUID,
a comparison no real store satisfies, so the time_limit_exceeded branch
is never reached.  (Over-limit HTTP submissions thus do create no
Answer row and change no score, but through the wrong, unconditional
error.) -/
theorem time_limit_never_rejected :
    (∀ (db : DB) (code : String) (pid qid : Nat) (a : String) (t : Int)
       (uh : Bool) (room : Room) (game : Game) (player : Player)
       (question : Question) (rp : RoomPlayer),
      db.findRoom code = some room →
      db.games.find? (fun g => g.room == room.id &&
        g.status == GameStatus.active) = some game →
      db.findPlayer pid = some player →
      db.questions.find? (fun q => q.id == qid && q.game == game.id)
        = some question →
      db.answers.find? (fun x => x.question == question.id &&
        x.player == player.id) = Option.none →
      db.room_players.find? (fun x => x.room == room.id &&
        x.player == player.id) = some rp →
      (wsCheckAnswer db code pid qid a t uh).2.answers.length
        = db.answers.length + 1) ∧
    (∀ (db : DB) (gid pid qid : Nat) (a : String) (uh : Bool) (t : Int)
       (game : Game) (player : Player) (question : Question),
      db.games.find? (fun g => g.id == gid) = some game →
      db.findPlayer pid = some player →
      db.questions.find? (fun q => q.id == qid && q.game == game.id)
        = some question →
      game.status = GameStatus.active →
      db.roomPlayerPkExists game.room player.id = false →
      httpSubmitAnswer db gid pid qid a uh t
        = (Except.error SubmitError.player_not_in_game, db)) := by
  constructor
  · intro db code pid qid a t uh room game player question rp
      h1 h2 h3 h4 h5 h6
    unfold wsCheckAnswer
    rw [h1]
    dsimp only
    rw [h2]
    dsimp only
    rw [h3]
    dsimp only
    rw [h4]
    dsimp only
    rw [h5]
    dsimp only
    rw [setScore_room_players, getOrCreateScore_room_players]
    dsimp only
    rw [h6]
    dsimp only
    rw [setScore_answers, getOrCreateScore_answers]
    dsimp only
    rw [List.length_append]
    rfl
  · intro db gid pid qid a uh t game player question h1 h2 h3 h4 h5
    unfold httpSubmitAnswer
    rw [h1]
    dsimp only
    rw [h2]
    dsimp only
    rw [h3]
    dsimp only
    rw [if_neg (by simp [h4]), if_pos (by simp [h5])]

/-- Witness for claim C2: a 35-second submission against the 30-second
question is recorded (not rejected) over the WebSocket path, while the
same submission over HTTP fails with player_not_in_game — never with
TimeLimitExceeded — even though bob is a member of the room. -/
theorem time_limit_never_rejected_witness :
    (wsCheckAnswer dbActive "R2" 2 100 "Italy" 35 false).2.answers.length
      = dbActive.answers.length + 1 ∧
    httpSubmitAnswer dbActive 50 2 100 "Italy" false 35
      = (Except.error SubmitError.player_not_in_game, dbActive) := by
  constructor
  · exact time_limit_never_rejected.1 dbActive "R2" 2 100 "Italy"
      35 false _ _ _ _ _ (by rfl) (by rfl) (by rfl) (by rfl) (by rfl)
      (by rfl)
  · exact time_limit_never_rejected.2 dbActive 50 2 100 "Italy"
      false 35 _ _ _ (by rfl) (by rfl) (by rfl) (by rfl) (by rfl)

/-- The WebSocket answer path either leaves the answers table alone or
appends exactly one row whose (question, player) pair had no row. -/
theorem wsCheckAnswer_answers_cases (db : DB) (code : String)
    (pid qid : Nat) (a : String) (t : Int) (uh : Bool) :
    (wsCheckAnswer db code pid qid a t uh).2.answers = db.answers ∨
    ∃ ans : Answer,
      db.answers.find? (fun x => x.question == ans.question &&
        x.player == ans.player) = Option.none ∧
      (wsCheckAnswer db code pid qid a t uh).2.answers
        = db.answers ++ [ans] := by
  unfold wsCheckAnswer
  repeat' split
  all_goals try (left; rfl)
  dsimp only
  rw [setScore_room_players, getOrCreateScore_room_players]
  dsimp only
  split
  · left; rfl
  · right
    refine ⟨_, ?_, by rw [setScore_answers, getOrCreateScore_answers]⟩
    assumption

/-- The HTTP answer path either leaves the answers table alone or
appends exactly one row whose (question, player) pair had no row. -/
theorem httpSubmitAnswer_answers_cases (db : DB) (gid pid qid : Nat)
    (a : String) (uh : Bool) (t : Int) :
    (httpSubmitAnswer db gid pid qid a uh t).2.answers = db.answers ∨
    ∃ ans : Answer,
      db.answers.find? (fun x => x.question == ans.question &&
        x.player == ans.player) = Option.none ∧
      (httpSubmitAnswer db gid pid qid a uh t).2.answers
        = db.answers ++ [ans] := by
  unfold httpSubmitAnswer
  repeat' split
  all_goals try (left; rfl)
  right
  refine ⟨_, ?_, by rw [setScore_answers, getOrCreateScore_answers]⟩
  assumption

/-- Claim C4: at most one Answer row per (question, player) — both
submission paths preserve the invariant, and a WebSocket submission for
a pair that already has a row creates no new row, changes no score, and
returns the stored result (same correctness and points) instead of
re-scoring. -/
theorem answer_unique_and_duplicate_idempotent :
    (∀ (db : DB) (code : String) (pid qid : Nat) (a : String) (t : Int)
       (uh : Bool) (room : Room) (game : Game) (player : Player)
       (question : Question) (existing : Answer) (gs : GameScore),
      db.findRoom code = some room →
      db.games.find? (fun g => g.room == room.id &&
        g.status == GameStatus.active) = some game →
      db.findPlayer pid = some player →
      db.questions.find? (fun q => q.id == qid && q.game == game.id)
        = some question →
      db.answers.find? (fun x => x.question == question.id &&
        x.player == player.id) = some existing →
      db.scores.find? (fun s => s.game == game.id &&
        s.player == player.id) = some gs →
      wsCheckAnswer db code pid qid a t uh
        = (Except.ok
            { player_name := player.username,
              is_correct := existing.is_correct,
              correct_answer := if existing.is_correct then Option.none
                else some question.correct_answer,
              points_earned := existing.points_earned,
              total_score := gs.total_score,
              already_answered := true }, db)) ∧
    (∀ (db : DB) (code : String) (pid qid : Nat) (a : String) (t : Int)
       (uh : Bool),
      atMostOneAnswerPerPair db →
      atMostOneAnswerPerPair (wsCheckAnswer db code pid qid a t uh).2) ∧
    (∀ (db : DB) (gid pid qid : Nat) (a : String) (uh : Bool) (t : Int),
      atMostOneAnswerPerPair db →
      atMostOneAnswerPerPair (httpSubmitAnswer db gid pid qid a uh t).2) := by
  refine ⟨?_, ?_, ?_⟩
  · intro db code pid qid a t uh room game player question existing gs
      h1 h2 h3 h4 h5 h6
    unfold wsCheckAnswer
    rw [h1]
    dsimp only
    rw [h2]
    dsimp only
    rw [h3]
    dsimp only
    rw [h4]
    dsimp only
    rw [h5]
    dsimp only
    rw [h6]
  · intro db code pid qid a t uh h
    rcases wsCheckAnswer_answers_cases db code pid qid a t uh with
      he | ⟨ans, hfind, he⟩
    · intro q p
      rw [he]
      exact h q p
    · intro q p
      rw [he]
      exact atMostOne_filter_append hfind h q p
  · intro db gid pid qid a uh t h
    rcases httpSubmitAnswer_answers_cases db gid pid qid a uh t with
      he | ⟨ans, hfind, he⟩
    · intro q p
      rw [he]
      exact h q p
    · intro q p
      rw [he]
      exact atMostOne_filter_append hfind h q p

/-- Witness for claim C4: bob already answered question 100, so a second
submission (even with the right answer) returns the stored wrong result
and leaves the store unchanged. -/
theorem answer_unique_and_duplicate_idempotent_witness :
    wsCheckAnswer dbAnswered "R2" 2 100 "France" 3 true
      = (Except.ok
          { player_name := "bob", is_correct := false,
            correct_answer := some "France", points_earned := 0,
            total_score := 0, already_answered := true }, dbAnswered) := by
  exact answer_unique_and_duplicate_idempotent.1 dbAnswered "R2" 2 100
    "France" 3 true _ _ _ _ _ _ (by rfl) (by rfl) (by rfl) (by rfl)
    (by rfl) (by rfl)
